import Mathlib

/-!
Verification development for the redcardinal-io/auth repository.

Shallow embedding of the configuration, error-taxonomy and supervision
layers of the Rust sources:
  rcauth-core/src/error.rs
  rcauth-store/src/config.rs
  rcauth-server/src/config.rs
  rcauth-cli/src/config.rs
  rcauth-cli/src/serve.rs
  rcauth-cli/src/main.rs
Machine integers (u16, u32) are embedded as Nat with the range checks of
the Rust `str::parse` calls made explicit; filesystem and environment
state are passed as explicit parameters; fallible Rust functions return
Except.
-/

namespace Rcauth

/-! ## rcauth-core/src/error.rs -/

/-- `ErrorCode` from rcauth-core/src/error.rs lines 27-43: the closed
enumeration of error kinds, exactly as declared in the source (thirteen
variants, in source order). -/
inductive ErrorCode where
  | Conflict
  | Internal
  | Invalid
  | NotFound
  | ServerError
  | Unauthorized
  | Forbidden
  | Timeout
  | Unavailable
  | UnprocessableEntity
  | DatabaseError
  | ValidationError
  | ConfigurationError
  deriving DecidableEq, Repr

/-- All variants of `ErrorCode`, in source order. -/
def ErrorCode.all : List ErrorCode :=
  [.Conflict, .Internal, .Invalid, .NotFound, .ServerError, .Unauthorized,
   .Forbidden, .Timeout, .Unavailable, .UnprocessableEntity, .DatabaseError,
   .ValidationError, .ConfigurationError]

/-- `ErrorCode::to_status_code` (error.rs lines 70-87): HTTP status codes
of the `http` crate constants used there, as numbers. -/
def ErrorCode.to_status_code : ErrorCode → Nat
  | .Conflict => 409
  | .ServerError => 500
  | .Internal => 500
  | .Invalid => 400
  | .NotFound => 404
  | .Unauthorized => 401
  | .Forbidden => 403
  | .Timeout => 408
  | .Unavailable => 503
  | .UnprocessableEntity => 422
  | .DatabaseError => 500
  | .ValidationError => 422
  | .ConfigurationError => 500

/-- The Rust identifier of each `ErrorCode` variant, as written in the
source. -/
def ErrorCode.ctorName : ErrorCode → String
  | .Conflict => "Conflict"
  | .Internal => "Internal"
  | .Invalid => "Invalid"
  | .NotFound => "NotFound"
  | .ServerError => "ServerError"
  | .Unauthorized => "Unauthorized"
  | .Forbidden => "Forbidden"
  | .Timeout => "Timeout"
  | .Unavailable => "Unavailable"
  | .UnprocessableEntity => "UnprocessableEntity"
  | .DatabaseError => "DatabaseError"
  | .ValidationError => "ValidationError"
  | .ConfigurationError => "ConfigurationError"

/-- The snake_case renaming rule of `#[serde(rename_all = "snake_case")]`
applied to a CamelCase identifier: every interior uppercase letter gets a
preceding underscore, and all letters are lowercased. -/
def snakeCaseAux : Bool → List Char → List Char
  | _, [] => []
  | first, c :: cs =>
    if c.isUpper then
      (if first then [c.toLower] else ['_', c.toLower]) ++ snakeCaseAux false cs
    else
      c :: snakeCaseAux false cs

/-- snake_case conversion of an identifier (models serde rename_all). -/
def snakeCase (s : String) : String :=
  String.mk (snakeCaseAux true s.data)

/-- `Display for ErrorCode` (error.rs lines 45-53): the serde snake_case
serialization of the variant name. -/
def ErrorCode.toString : ErrorCode → String
  | .Conflict => "conflict"
  | .Internal => "internal"
  | .Invalid => "invalid"
  | .NotFound => "not_found"
  | .ServerError => "server_error"
  | .Unauthorized => "unauthorized"
  | .Forbidden => "forbidden"
  | .Timeout => "timeout"
  | .Unavailable => "unavailable"
  | .UnprocessableEntity => "unprocessable_entity"
  | .DatabaseError => "database_error"
  | .ValidationError => "validation_error"
  | .ConfigurationError => "configuration_error"

/-- A JSON value as stored in the detail map (`serde_json::Value`); only
string values are ever constructed by the embedded code paths. -/
inductive Jv where
  | str : String → Jv
  deriving DecidableEq, Repr

/-- `Error` (AppError) from error.rs lines 12-23.  The boxed
`dyn std::error::Error` cause is embedded by its Display text, which is
all the source code ever extracts from it (`source.to_string()`). -/
structure Error where
  message : String
  code : ErrorCode
  status : Nat
  source : Option String
  internal : Option String
  op : Option String
  data : Option (List (String × Jv))
  deriving DecidableEq, Repr

/-- `Error::new` (error.rs lines 94-109). -/
def Error.new (code : ErrorCode) (message : String) (source : String) : Error :=
  { status := code.to_status_code
    message := message ++ ": " ++ source
    internal := some source
    source := some source
    code := code
    op := none
    data := none }

/-- `Error::new_simple` (error.rs lines 112-123). -/
def Error.new_simple (code : ErrorCode) (message : String) : Error :=
  { status := code.to_status_code
    internal := some message
    message := message
    source := none
    code := code
    op := none
    data := none }

/-- `Error::with_op` (error.rs lines 132-135). -/
def Error.with_op (e : Error) (op : String) : Error :=
  { e with op := some op }

/-- HashMap insert on the association-list model: replaces the value at
the key when present, else appends the pair. -/
def insertKV (m : List (String × Jv)) (k : String) (v : Jv) : List (String × Jv) :=
  if m.any (fun p => p.1 = k) then
    m.map (fun p => if p.1 = k then (k, v) else p)
  else
    m ++ [(k, v)]

/-- `Error::with_data` (error.rs lines 142-147). -/
def Error.with_data (e : Error) (k : String) (v : Jv) : Error :=
  { e with data := some (insertKV (e.data.getD []) k v) }

/-- A `&dyn std::error::Error` value reaching the rendering boundary:
either the application error type (downcast succeeds) or a foreign error
embedded by its Display text (downcast fails). -/
inductive DynError where
  | app : Error → DynError
  | foreign : String → DynError
  deriving DecidableEq, Repr

/-- `ErrorResponse` (error.rs lines 151-163): the JSON response sent to
the client. -/
structure ErrorResponse where
  status : Nat
  code : String
  message : String
  details : Option (List (String × Jv))
  deriving DecidableEq, Repr

/-- `ErrorResponse::from_error` (error.rs lines 166-190). -/
def ErrorResponse.from_error : DynError → ErrorResponse
  | .app e =>
    let details :=
      match e.op with
      | some op => some (insertKV (e.data.getD []) "operation" (Jv.str op))
      | none => e.data
    { status := e.status
      code := e.code.toString
      message := e.message
      details := details }
  | .foreign _ =>
    { status := 500
      code := ErrorCode.Internal.toString
      message := "An unexpected internal error occurred."
      details := none }

/-! ## rcauth-store/src/config.rs -/

namespace Store

/-- `default_port` (store config.rs line 4). -/
def default_port : Nat := 5432

/-- `default_pool_size` (store config.rs line 9). -/
def default_pool_size : Nat := 10

/-- `default_ssl_mode` (store config.rs line 14). -/
def default_ssl_mode : String := "prefer"

/-- `default_migrations_dir` (store config.rs line 26). -/
def default_migrations_dir : String := "./migrations"

/-- `Config` (store config.rs lines 30-48). `port` is a u16 and
`pool_size` a u32 in the source; they are embedded as Nat, with range
enforced where the code parses them. -/
structure Config where
  host : String
  port : Nat
  user : String
  password : String
  database : String
  pool_size : Nat
  ssl_mode : String
  migrations_dir : String
  deriving DecidableEq, Repr

/-- `ConfigBuilder` (store config.rs lines 51-61). -/
structure ConfigBuilder where
  host : Option String := none
  port : Option Nat := none
  user : Option String := none
  password : Option String := none
  database : Option String := none
  pool_size : Option Nat := none
  ssl_mode : Option String := none
  migrations_dir : Option String := none
  deriving DecidableEq, Repr

/-- `Config::builder` (store config.rs lines 96-98): the default builder
with every field unset. -/
def Config.builder : ConfigBuilder := {}

/-- Builder setter `host` (store config.rs lines 215-218). -/
def ConfigBuilder.set_host (b : ConfigBuilder) (v : String) : ConfigBuilder :=
  { b with host := some v }

/-- Builder setter `port` (store config.rs lines 231-234). -/
def ConfigBuilder.set_port (b : ConfigBuilder) (v : Nat) : ConfigBuilder :=
  { b with port := some v }

/-- Builder setter `user` (store config.rs lines 243-246). -/
def ConfigBuilder.set_user (b : ConfigBuilder) (v : String) : ConfigBuilder :=
  { b with user := some v }

/-- Builder setter `password` (store config.rs lines 255-258). -/
def ConfigBuilder.set_password (b : ConfigBuilder) (v : String) : ConfigBuilder :=
  { b with password := some v }

/-- Builder setter `database` (store config.rs lines 267-270). -/
def ConfigBuilder.set_database (b : ConfigBuilder) (v : String) : ConfigBuilder :=
  { b with database := some v }

/-- Builder setter `pool_size` (store config.rs lines 281-284). -/
def ConfigBuilder.set_pool_size (b : ConfigBuilder) (v : Nat) : ConfigBuilder :=
  { b with pool_size := some v }

/-- Builder setter `ssl_mode` (store config.rs lines 293-296). -/
def ConfigBuilder.set_ssl_mode (b : ConfigBuilder) (v : String) : ConfigBuilder :=
  { b with ssl_mode := some v }

/-- Builder setter `migrations_dir` (store config.rs lines 305-308). -/
def ConfigBuilder.set_migrations_dir (b : ConfigBuilder) (v : String) : ConfigBuilder :=
  { b with migrations_dir := some v }

/-- The `valid_ssl_modes` array of `Config::validate` (store config.rs
line 179). -/
def valid_ssl_modes : List String :=
  ["disable", "prefer", "require", "verify-ca", "verify-full"]

/-- `Config::validate` (store config.rs lines 159-202).  The filesystem
check `path.exists() && path.is_dir()` on the migrations directory is
passed in as the predicate `dirOk`. -/
def Config.validate (dirOk : String → Bool) (c : Config) : Except String Unit :=
  if c.host = "" then
    .error "Database host cannot be empty"
  else if c.user = "" then
    .error "Database user cannot be empty"
  else if c.database = "" then
    .error "Database name cannot be empty"
  else if c.pool_size = 0 then
    .error "Pool size must be at least 1"
  else if ¬ (valid_ssl_modes.contains c.ssl_mode) then
    .error ("Invalid SSL mode: " ++ c.ssl_mode ++ ". Must be one of: "
      ++ String.intercalate ", " valid_ssl_modes)
  else if c.migrations_dir ≠ "" ∧ dirOk c.migrations_dir = false then
    .error ("Migrations directory does not exist or is not a directory: "
      ++ c.migrations_dir)
  else
    .ok ()

/-- The `Config` value built by `ConfigBuilder::build` before validation
(store config.rs lines 326-335): each unset field falls back to its
default. -/
def ConfigBuilder.resolve (b : ConfigBuilder) : Config :=
  { host := b.host.getD ""
    port := b.port.getD default_port
    user := b.user.getD ""
    password := b.password.getD ""
    database := b.database.getD ""
    pool_size := b.pool_size.getD default_pool_size
    ssl_mode := b.ssl_mode.getD default_ssl_mode
    migrations_dir := b.migrations_dir.getD default_migrations_dir }

/-- `ConfigBuilder::build` (store config.rs lines 325-341). -/
def ConfigBuilder.build (b : ConfigBuilder) (dirOk : String → Bool) :
    Except String Config :=
  match (b.resolve).validate dirOk with
  | .ok _ => .ok b.resolve
  | .error e => .error e

end Store

/-! ## rcauth-server/src/config.rs -/

namespace Server

/-- `default_api_server_host` (server config.rs lines 31-33). -/
def default_api_server_host : String := "0.0.0.0"

/-- `default_api_server_port` (server config.rs lines 43-45). -/
def default_api_server_port : Nat := 8000

/-- `default_management_server_host` (server config.rs lines 55-57). -/
def default_management_server_host : String := "0.0.0.0"

/-- `default_management_server_port` (server config.rs lines 67-69). -/
def default_management_server_port : Nat := 8001

/-- `default_enable_swagger` (server config.rs lines 78-80). -/
def default_enable_swagger : Bool := true

/-- `default_enable_cors` (server config.rs lines 92-94). -/
def default_enable_cors : Bool := true

/-- `default_cors_allowed_origins` (server config.rs lines 104-106). -/
def default_cors_allowed_origins : List String := ["*"]

/-- `Config` (server config.rs lines 5-21).  Ports are u16 in the
source, embedded as Nat with the range enforced where the code parses
them. -/
structure Config where
  api_server_host : String
  api_server_port : Nat
  management_server_host : String
  management_server_port : Nat
  enable_swagger : Bool
  enable_cors : Bool
  cors_allowed_origins : List String
  deriving DecidableEq, Repr

/-- `Config::default` (server config.rs lines 119-129). -/
def Config.defaultConfig : Config :=
  { api_server_host := default_api_server_host
    api_server_port := default_api_server_port
    management_server_host := default_management_server_host
    management_server_port := default_management_server_port
    enable_swagger := default_enable_swagger
    enable_cors := default_enable_cors
    cors_allowed_origins := default_cors_allowed_origins }

/-- `Config::validate` (server config.rs lines 176-212): the checks in
source order, with the exact error strings. -/
def Config.validate (c : Config) : Except String Unit :=
  if c.api_server_host = "" then
    .error "API server host cannot be empty"
  else if c.management_server_host = "" then
    .error "Management server host cannot be empty"
  else if c.api_server_port = 0 then
    .error "API server port cannot be 0"
  else if c.management_server_port = 0 then
    .error "Management server port cannot be 0"
  else if c.api_server_host = c.management_server_host ∧
          c.api_server_port = c.management_server_port then
    .error ("API and management servers cannot share the same host:port combination ("
      ++ c.api_server_host ++ ":" ++ Nat.repr c.api_server_port ++ ")")
  else if c.enable_cors ∧ c.cors_allowed_origins = [] then
    .error "CORS is enabled but no allowed origins are specified"
  else
    .ok ()

/-- `ConfigBuilder` (server config.rs lines 215-225). -/
structure ConfigBuilder where
  api_server_host : Option String := none
  api_server_port : Option Nat := none
  management_server_host : Option String := none
  management_server_port : Option Nat := none
  enable_swagger : Option Bool := none
  enable_cors : Option Bool := none
  cors_allowed_origins : Option (List String) := none
  deriving DecidableEq, Repr

/-- `Config::builder`: the default builder with every field unset (the
`builder()` helper lives in the crate root, not under src/; it follows
the same pattern as the store and logger crates, returning
`ConfigBuilder::default()`). -/
def Config.builder : ConfigBuilder := {}

/-- Builder setter `api_server_host` (server config.rs lines 235-238). -/
def ConfigBuilder.set_api_server_host (b : ConfigBuilder) (v : String) : ConfigBuilder :=
  { b with api_server_host := some v }

/-- Builder setter `api_server_port` (server config.rs lines 247-250). -/
def ConfigBuilder.set_api_server_port (b : ConfigBuilder) (v : Nat) : ConfigBuilder :=
  { b with api_server_port := some v }

/-- Builder setter `management_server_host` (server config.rs lines 259-262). -/
def ConfigBuilder.set_management_server_host (b : ConfigBuilder) (v : String) : ConfigBuilder :=
  { b with management_server_host := some v }

/-- Builder setter `management_server_port` (server config.rs lines 271-274). -/
def ConfigBuilder.set_management_server_port (b : ConfigBuilder) (v : Nat) : ConfigBuilder :=
  { b with management_server_port := some v }

/-- Builder setter `enable_swagger` (server config.rs lines 283-286). -/
def ConfigBuilder.set_enable_swagger (b : ConfigBuilder) (v : Bool) : ConfigBuilder :=
  { b with enable_swagger := some v }

/-- Builder setter `enable_cors` (server config.rs lines 297-300). -/
def ConfigBuilder.set_enable_cors (b : ConfigBuilder) (v : Bool) : ConfigBuilder :=
  { b with enable_cors := some v }

/-- Builder setter `cors_allowed_origins` (server config.rs lines 312-315). -/
def ConfigBuilder.set_cors_allowed_origins (b : ConfigBuilder) (v : List String) : ConfigBuilder :=
  { b with cors_allowed_origins := some v }

/-- The `Config` value built by `ConfigBuilder::build` before validation
(server config.rs lines 333-353): each unset field falls back to
`Config::default()`. -/
def ConfigBuilder.resolve (b : ConfigBuilder) : Config :=
  { api_server_host := b.api_server_host.getD default_api_server_host
    api_server_port := b.api_server_port.getD default_api_server_port
    management_server_host := b.management_server_host.getD default_management_server_host
    management_server_port := b.management_server_port.getD default_management_server_port
    enable_swagger := b.enable_swagger.getD default_enable_swagger
    enable_cors := b.enable_cors.getD default_enable_cors
    cors_allowed_origins := b.cors_allowed_origins.getD default_cors_allowed_origins }

/-- `ConfigBuilder::build` (server config.rs lines 332-359). -/
def ConfigBuilder.build (b : ConfigBuilder) : Except String Config :=
  match (b.resolve).validate with
  | .ok _ => .ok b.resolve
  | .error e => .error e

end Server

/-! ## rcauth-core/src/logger.rs -/

namespace Logger

/-- `default_log_level` (logger.rs lines 13-15). -/
def default_log_level : String := "info"

/-- `Config` (logger.rs lines 17-21). -/
structure Config where
  log_level : String
  deriving DecidableEq, Repr

/-- `ConfigBuilder` (logger.rs lines 23-26). -/
structure ConfigBuilder where
  log_level : Option String := none
  deriving DecidableEq, Repr

/-- `Config::builder` (logger.rs lines 52-54). -/
def Config.builder : ConfigBuilder := {}

/-- Builder setter `log_level`. -/
def ConfigBuilder.set_log_level (b : ConfigBuilder) (v : String) : ConfigBuilder :=
  { b with log_level := some v }

end Logger

/-! ## rcauth-cli/src/config.rs -/

namespace Cli

/-- Rust `str::parse::<uN>` on a decimal string: an optional leading
plus sign, then at least one ASCII digit, and the value must fit the
integer type (bound `max`, inclusive).  Returns none exactly when Rust
parse returns Err. -/
def parseNatRust (max : Nat) (s : String) : Option Nat :=
  let cs := match s.data with
    | '+' :: rest => rest
    | cs => cs
  if cs = [] ∨ cs.any (fun c => ¬ c.isDigit) then
    none
  else
    let n := cs.foldl (fun acc c => acc * 10 + (c.toNat - '0'.toNat)) 0
    if n ≤ max then some n else none

/-- u16::MAX, the bound of `parse::<u16>()`. -/
def u16max : Nat := 65535

/-- u32::MAX, the bound of `parse::<u32>()`. -/
def u32max : Nat := 4294967295

/-- The process environment, as the partial map that
`std::env::var` reads. -/
structure Env where
  vars : List (String × String)
  deriving Repr

/-- `std::env::var(k)`: the value of key `k`, if set. -/
def Env.var (e : Env) (k : String) : Option String :=
  e.vars.lookup k

/-- The observable outcome of the file source read by
`load_config_file`: whether `rcauth.toml` exists, whether reading it
succeeds, and what each of the three independent `toml::from_str`
attempts on its content yields (none when that parse fails). -/
structure FileParse where
  fileExists : Bool
  readOk : Bool
  storeParse : Option Store.Config
  serverParse : Option Server.Config
  loggerParse : Option Logger.Config
  deriving Repr

/-- `ConfigFile` (cli config.rs lines 15-20). -/
structure ConfigFile where
  store_config : Option Store.Config := none
  server_config : Option Server.Config := none
  logger_config : Option Logger.Config := none
  deriving Repr

/-- `load_config_file` (cli config.rs lines 31-60): if the file exists
and reads successfully, each domain keeps its own parse result (a failed
parse leaves that domain none); a missing or unreadable file leaves all
three none. -/
def load_config_file (f : FileParse) : ConfigFile :=
  if f.fileExists ∧ f.readOk then
    { store_config := f.storeParse
      server_config := f.serverParse
      logger_config := f.loggerParse }
  else
    {}

/-- `load_store_from_env` (cli config.rs lines 176-221): stages each
field whose environment variable is set and, for the numeric fields,
parses successfully; then builds, wrapping a build failure into a
ConfigurationError. -/
def load_store_from_env (dirOk : String → Bool) (env : Env) :
    Except Error Store.Config :=
  let b := Store.Config.builder
  let b := match env.var "RCAUTH_DB_HOST" with
    | some v => b.set_host v
    | none => b
  let b := match env.var "RCAUTH_DB_PORT" with
    | some s => match parseNatRust u16max s with
      | some p => b.set_port p
      | none => b
    | none => b
  let b := match env.var "RCAUTH_DB_USER" with
    | some v => b.set_user v
    | none => b
  let b := match env.var "RCAUTH_DB_PASSWORD" with
    | some v => b.set_password v
    | none => b
  let b := match env.var "RCAUTH_DB_NAME" with
    | some v => b.set_database v
    | none => b
  let b := match env.var "RCAUTH_DB_POOL_SIZE" with
    | some s => match parseNatRust u32max s with
      | some p => b.set_pool_size p
      | none => b
    | none => b
  let b := match env.var "RCAUTH_DB_SSL_MODE" with
    | some v => b.set_ssl_mode v
    | none => b
  let b := match env.var "RCAUTH_DB_MIGRATIONS_DIR" with
    | some v => b.set_migrations_dir v
    | none => b
  match b.build dirOk with
  | .ok c => .ok c
  | .error e =>
    .error (Error.new_simple .ConfigurationError
      ("Invalid database configuration: " ++ e))

/-- `load_store_config` (cli config.rs lines 76-97): the file source, if
it parsed for the store domain, is returned wholesale; otherwise the
environment loader runs, a failure being replaced by the fixed
ConfigurationError. -/
def load_store_config (dirOk : String → Bool) (f : FileParse) (env : Env) :
    Except Error Store.Config :=
  match (load_config_file f).store_config with
  | some c => .ok c
  | none =>
    match load_store_from_env dirOk env with
    | .ok c => .ok c
    | .error _ =>
      .error (Error.new_simple .ConfigurationError
        "Failed to load database configuration from environment or config file")

/-- `load_server_from_env` (cli config.rs lines 240-282). -/
def load_server_from_env (env : Env) : Except Error Server.Config :=
  let b := Server.Config.builder
  let b := match env.var "RCAUTH_API_SERVER_HOST" with
    | some v => b.set_api_server_host v
    | none => b
  let b := match env.var "RCAUTH_API_SERVER_PORT" with
    | some s => match parseNatRust u16max s with
      | some p => b.set_api_server_port p
      | none => b
    | none => b
  let b := match env.var "RCAUTH_MANAGEMENT_SERVER_HOST" with
    | some v => b.set_management_server_host v
    | none => b
  let b := match env.var "RCAUTH_MANAGEMENT_SERVER_PORT" with
    | some s => match parseNatRust u16max s with
      | some p => b.set_management_server_port p
      | none => b
    | none => b
  let b := match env.var "RCAUTH_ENABLE_SWAGGER" with
    | some v => b.set_enable_swagger (v = "true")
    | none => b
  let b := match env.var "RCAUTH_ENABLE_CORS" with
    | some v => b.set_enable_cors (v = "true")
    | none => b
  let b := match env.var "RCAUTH_CORS_ALLOWED_ORIGINS" with
    | some v => b.set_cors_allowed_origins (v.splitOn ",")
    | none => b
  match b.build with
  | .ok c => .ok c
  | .error e =>
    .error (Error.new_simple .ConfigurationError
      ("Invalid server configuration: " ++ e))

/-- `load_server_config` (cli config.rs lines 115-126): the file source,
if it parsed for the server domain, is returned wholesale; otherwise the
environment loader result is propagated as-is. -/
def load_server_config (f : FileParse) (env : Env) : Except Error Server.Config :=
  match (load_config_file f).server_config with
  | some c => .ok c
  | none => load_server_from_env env

end Cli

/-! ## rcauth-cli/src/serve.rs and main.rs -/

namespace Serve

/-- The closure spawned for the API server task (serve.rs lines 38-49):
a success from `run_api_server` becomes Ok, an error is logged and
wrapped as a ServerError with the prefix naming the failed server.  The
boxed error of the started server is embedded by its Display text. -/
def wrap_api_result : Except String Unit → Except Error Unit
  | .ok _ => .ok ()
  | .error e =>
    .error (Error.new_simple .ServerError ("API server failed: " ++ e))

/-- The closure spawned for the management server task (serve.rs lines
52-63). -/
def wrap_management_result : Except String Unit → Except Error Unit
  | .ok _ => .ok ()
  | .error e =>
    .error (Error.new_simple .ServerError ("Management server failed: " ++ e))

/-- The value `JoinSet::join_next` hands to the supervisor for the first
task that completes: either the completed task body result, or a join
error carrying the panic text. -/
inductive JoinResult where
  | finished : Except Error Unit → JoinResult
  | panicked : String → JoinResult
  deriving Repr

/-- The tail of `serve::run` (serve.rs lines 66-87) as a function of the
first completed task: an Err task result is returned as the session
error; a panic is wrapped as a ServerError; a task that returned Ok
falls through to the final `Ok(())`. -/
def session_outcome : JoinResult → Except Error Unit
  | .finished (.error e) => .error e
  | .finished (.ok _) => .ok ()
  | .panicked m =>
    .error (Error.new_simple .ServerError ("Server task panicked: " ++ m))

/-- The process exit status of `main` (main.rs lines 49-70) as a
function of the propagated Result: the Rust runtime exits 0 when main
returns Ok and 1 when it returns Err. -/
def main_exit_code : Except Error Unit → Nat
  | .ok _ => 0
  | .error _ => 1

end Serve

/-! ## Claim theorems -/

/-- The eleven error kinds named by the specification, as a list of the
corresponding `ErrorCode` variants; stated from the words of the spec
for comparison with the source enumeration. -/
def specElevenKinds : List ErrorCode :=
  [.Conflict, .Internal, .Invalid, .NotFound, .Unauthorized, .Forbidden,
   .Timeout, .Unavailable, .UnprocessableEntity, .DatabaseError,
   .ConfigurationError]

/-- Claim C1, counterexample: the claim says the taxonomy is a closed set
of exactly eleven kinds, but the `ErrorCode` enumeration also declares
`ServerError` and `ValidationError`, which are outside the listed eleven,
and has thirteen variants in total. -/
theorem C1_counterexample :
    ErrorCode.ServerError ∉ specElevenKinds
    ∧ ErrorCode.ValidationError ∉ specElevenKinds
    ∧ ErrorCode.all.length ≠ 11 := by
  decide

/-- Claim C1, amended: the error taxonomy is a closed set of exactly
thirteen kinds, the eleven named by the spec plus `ServerError` and
`ValidationError`; the mapping to an external status code is total with
every status among the standard HTTP codes used, and the machine-readable
string code of every kind is its lowercase-with-underscores
(snake_case) name. -/
theorem C1_taxonomy :
    ErrorCode.all.length = 13 ∧ ErrorCode.all.Nodup
    ∧ (∀ c : ErrorCode,
        c ∈ ErrorCode.all
        ∧ (c ∈ specElevenKinds ∨ c = .ServerError ∨ c = .ValidationError)
        ∧ c.toString = snakeCase c.ctorName
        ∧ c.to_status_code ∈ [400, 401, 403, 404, 408, 409, 422, 500, 503]) := by
  refine ⟨by decide, by decide, ?_⟩
  intro c
  cases c <;> exact ⟨by decide, by decide, by decide, by decide⟩

/-- Claim C2, counterexample: two errors built by `Error::new` with the
same user-facing message and kind but different underlying causes render
to different external messages, because the constructor folds the cause
text into the message. -/
theorem C2_counterexample :
    (ErrorResponse.from_error (.app (Error.new .Invalid "db write failed" "cause A"))).message
      = "db write failed: cause A"
    ∧ (ErrorResponse.from_error (.app (Error.new .Invalid "db write failed" "cause B"))).message
      = "db write failed: cause B"
    ∧ ("db write failed: cause A" : String) ≠ "db write failed: cause B" := by
  decide

/-- Claim C2, amended: for an error built by `Error::new`, the external
rendering carries the cause text inside its message, which is exactly the
user-facing message followed by a colon, a space and the cause text; the
rendered machine code depends only on the kind and the details map is
empty, so outside the message no field of the response carries the
cause. -/
theorem C2_rendering (code : ErrorCode) (msg src : String) :
    ErrorResponse.from_error (.app (Error.new code msg src))
      = { status := code.to_status_code
          code := code.toString
          message := msg ++ ": " ++ src
          details := none } := by
  rfl

/-- Claim C6, counterexample: the wrapped message for an API service
error uses the prefix with the word server, not the word service; the
literal prefix the claim states does not occur in the wrapped message at
all. -/
theorem C6_counterexample :
    Serve.wrap_api_result (.error "boom")
      = .error (Error.new_simple .ServerError "API server failed: boom")
    ∧ ¬ ("API service failed: ".data <:+: "API server failed: boom".data) := by
  constructor
  · rfl
  · decide

/-- Claim C6, amended: a supervised service terminating with an internal
error has that error wrapped as a ServerError whose message is the exact
text of the failure prefixed by the deterministic service-naming prefix,
which is the string API server failed colon-space for the API service and
Management server failed colon-space for the management service. -/
theorem C6_wrap (apiErr mgmtErr : String) :
    Serve.wrap_api_result (.error apiErr)
      = .error (Error.new_simple .ServerError ("API server failed: " ++ apiErr))
    ∧ Serve.wrap_management_result (.error mgmtErr)
      = .error (Error.new_simple .ServerError ("Management server failed: " ++ mgmtErr))
    ∧ (Error.new_simple .ServerError ("API server failed: " ++ apiErr)).message
      = "API server failed: " ++ apiErr
    ∧ (Error.new_simple .ServerError ("Management server failed: " ++ mgmtErr)).message
      = "Management server failed: " ++ mgmtErr := by
  exact ⟨rfl, rfl, rfl, rfl⟩

/-- Claim C7, counterexample: when the first completed service returns
success, the session outcome is Ok and the host process exits zero, so
the process does exit zero while services are expected to run forever. -/
theorem C7_counterexample :
    Serve.session_outcome (.finished (.ok ())) = .ok ()
    ∧ Serve.main_exit_code (Serve.session_outcome (.finished (.ok ()))) = 0 := by
  exact ⟨rfl, rfl⟩

/-- Claim C7, amended: the supervisor waits for exactly one completion
and the session outcome is a function of the first terminal state alone,
with no restart; a Failed first completion propagates the service error
as the session outcome and a Panicked one is wrapped as a ServerError, in
either case exiting non-zero; but a service returning success makes the
session outcome Ok and the host process exits zero rather than non-zero,
the success being reported only through a log line. -/
theorem C7_failfast (e : Error) (m : String) :
    Serve.session_outcome (.finished (.error e)) = .error e
    ∧ Serve.main_exit_code (Serve.session_outcome (.finished (.error e))) = 1
    ∧ Serve.session_outcome (.panicked m)
      = .error (Error.new_simple .ServerError ("Server task panicked: " ++ m))
    ∧ Serve.main_exit_code (Serve.session_outcome (.panicked m)) = 1
    ∧ Serve.session_outcome (.finished (.ok ())) = .ok ()
    ∧ Serve.main_exit_code (Serve.session_outcome (.finished (.ok ()))) = 0 := by
  exact ⟨rfl, rfl, rfl, rfl, rfl, rfl⟩

/-- Claim C10, confirmed: rendering any error value that is not the
application taxonomy type yields status 500, machine code internal, the
fixed message, and no details map; the foreign error text never appears
in the response. -/
theorem C10_foreign (s : String) :
    ErrorResponse.from_error (.foreign s)
      = { status := 500
          code := "internal"
          message := "An unexpected internal error occurred."
          details := none }
    ∧ ErrorCode.Internal.toString = "internal"
    ∧ ErrorCode.Internal.to_status_code = 500 := by
  exact ⟨rfl, rfl, rfl⟩

/-- Claim C8, counterexample: for a staged server configuration with
both ports zero and equal host:port, the documented order would report
the host:port conflict first, but `build()` reports the zero API port
error. -/
theorem C8_counterexample :
    ((Server.Config.builder.set_api_server_port 0).set_management_server_port 0).build
      = .error "API server port cannot be 0"
    ∧ ("API server port cannot be 0" : String)
      ≠ "API and management servers cannot share the same host:port combination (0.0.0.0:0)" := by
  constructor
  · rfl
  · decide

/-- Claim C8, amended: `build()` applies defaulting and the cross-field
checks atomically and returns the first violation in the code order:
empty API host, empty management host, zero API port, zero management
port, same host:port conflict, CORS enabled with an empty allow-list; in
particular a staged state with non-empty hosts and a zero API port is
reported as the zero-port error even when the host:port conflict also
holds, and a state with non-empty hosts, non-zero ports and identical
host:port pairs is reported as the conflict error naming the shared
pair. -/
theorem C8_order (b₁ b₂ : Server.ConfigBuilder)
    (h1 : (b₁.resolve).api_server_host ≠ "")
    (h2 : (b₁.resolve).management_server_host ≠ "")
    (h3 : (b₁.resolve).api_server_port = 0)
    (h4 : (b₂.resolve).api_server_host ≠ "")
    (h5 : (b₂.resolve).management_server_host ≠ "")
    (h6 : (b₂.resolve).api_server_port ≠ 0)
    (h7 : (b₂.resolve).management_server_port ≠ 0)
    (h8 : (b₂.resolve).api_server_host = (b₂.resolve).management_server_host)
    (h9 : (b₂.resolve).api_server_port = (b₂.resolve).management_server_port) :
    b₁.build = .error "API server port cannot be 0"
    ∧ b₂.build
      = .error ("API and management servers cannot share the same host:port combination ("
          ++ (b₂.resolve).api_server_host ++ ":"
          ++ Nat.repr (b₂.resolve).api_server_port ++ ")") := by
  constructor
  · unfold Server.ConfigBuilder.build Server.Config.validate
    rw [if_neg h1, if_neg h2, if_pos h3]
  · unfold Server.ConfigBuilder.build Server.Config.validate
    rw [if_neg h4, if_neg h5, if_neg h6, if_neg h7, if_pos ⟨h8, h9⟩]

/-- Witness for C8_order at a concrete staged state: a builder staging a
zero API port (hosts defaulted, the conflict also holding since both
ports default the same host) and a builder staging the same non-zero
port for both services. -/
theorem C8_order_witness :
    (Server.Config.builder.set_api_server_port 0).build
      = .error "API server port cannot be 0"
    ∧ ((Server.Config.builder.set_api_server_port 9100).set_management_server_port 9100).build
      = .error "API and management servers cannot share the same host:port combination (0.0.0.0:9100)" := by
  exact C8_order (Server.Config.builder.set_api_server_port 0)
    ((Server.Config.builder.set_api_server_port 9100).set_management_server_port 9100)
    (by decide) (by decide) (by decide) (by decide) (by decide) (by decide)
    (by decide) (by decide) (by decide)

/-- From a successful store validation the pool size is non-zero (the
pool-size check of `Config::validate`). -/
theorem Store.validate_ok_pool (dirOk : String → Bool) (c : Store.Config)
    (h : c.validate dirOk = .ok ()) : c.pool_size ≠ 0 := by
  unfold Store.Config.validate at h
  intro hp
  rw [hp] at h
  by_cases hh : c.host = "" <;> simp [hh] at h
  by_cases hu : c.user = "" <;> simp [hu] at h
  by_cases hd : c.database = "" <;> simp [hd] at h

/-- Claim C9, counterexample: with a pool size of 0 staged on an
otherwise empty builder, `build()` fails with the empty-host error, not
with an error naming the pool-size constraint. -/
theorem C9_counterexample :
    (Store.Config.builder.set_pool_size 0).build (fun _ => true)
      = .error "Database host cannot be empty"
    ∧ ("Database host cannot be empty" : String) ≠ "Pool size must be at least 1" := by
  constructor
  · rfl
  · decide

/-- Claim C9, amended: with a pool size of 0 staged, `build()` always
fails; the error names the pool-size constraint whenever the host, user
and database checks (which the code evaluates first) pass; and with any
pool size of at least 1 staged and all other fields holding valid
values, `build()` succeeds and the resulting pool size equals the staged
value. -/
theorem C9_pool (dirOk : String → Bool) (b₁ b₂ : Store.ConfigBuilder) (n : Nat)
    (h0 : b₁.pool_size = some 0)
    (hh : (b₂.resolve).host ≠ "")
    (hu : (b₂.resolve).user ≠ "")
    (hd : (b₂.resolve).database ≠ "")
    (hs : Store.valid_ssl_modes.contains (b₂.resolve).ssl_mode = true)
    (hm : dirOk (b₂.resolve).migrations_dir = true)
    (hn : b₂.pool_size = some n) (h1 : 1 ≤ n) :
    ((b₁.build dirOk).isOk = false)
    ∧ (({ b₂ with pool_size := some 0 } : Store.ConfigBuilder).build dirOk
        = .error "Pool size must be at least 1")
    ∧ b₂.build dirOk = .ok b₂.resolve
    ∧ (b₂.resolve).pool_size = n := by
  have hp1 : (b₁.resolve).pool_size = 0 := by
    simp [Store.ConfigBuilder.resolve, h0]
  have hp2 : (b₂.resolve).pool_size = n := by
    simp [Store.ConfigBuilder.resolve, hn]
  refine ⟨?_, ?_, ?_, hp2⟩
  · unfold Store.ConfigBuilder.build
    cases hv : (b₁.resolve).validate dirOk with
    | ok u =>
      cases u
      exact absurd hp1 (Store.validate_ok_pool dirOk _ hv)
    | error e => rfl
  · have hres : ({ b₂ with pool_size := some 0 } : Store.ConfigBuilder).resolve
        = { b₂.resolve with pool_size := 0 } := by
      simp [Store.ConfigBuilder.resolve]
    unfold Store.ConfigBuilder.build
    rw [hres]
    unfold Store.Config.validate
    simp only
    rw [if_neg hh, if_neg hu, if_neg hd]
    simp
  · have hok : (b₂.resolve).validate dirOk = .ok () := by
      unfold Store.Config.validate
      rw [if_neg hh, if_neg hu, if_neg hd,
        if_neg (by rw [hp2]; omega),
        if_neg (by rw [hs]; simp),
        if_neg (by rw [hm]; simp)]
    unfold Store.ConfigBuilder.build
    rw [hok]

/-- Witness for C9_pool at a concrete staged state: a builder staging
only pool size 0, and a builder staging host, user, database and pool
size 3, under a directory predicate accepting every path. -/
theorem C9_pool_witness :
    (((Store.Config.builder.set_pool_size 0).build (fun _ => true)).isOk = false)
    ∧ (({ ((Store.Config.builder.set_host "localhost").set_user "postgres").set_database
            "rcauth" |>.set_pool_size 3 with pool_size := some 0 } : Store.ConfigBuilder).build
          (fun _ => true)
        = .error "Pool size must be at least 1")
    ∧ (((Store.Config.builder.set_host "localhost").set_user "postgres").set_database
          "rcauth" |>.set_pool_size 3).build (fun _ => true)
      = .ok ((((Store.Config.builder.set_host "localhost").set_user "postgres").set_database
          "rcauth" |>.set_pool_size 3).resolve)
    ∧ ((((Store.Config.builder.set_host "localhost").set_user "postgres").set_database
          "rcauth" |>.set_pool_size 3).resolve).pool_size = 3 := by
  exact C9_pool (fun _ => true) (Store.Config.builder.set_pool_size 0)
    (((Store.Config.builder.set_host "localhost").set_user "postgres").set_database
      "rcauth" |>.set_pool_size 3) 3
    rfl (by decide) (by decide) (by decide) (by decide) rfl rfl (by decide)

/-- Claim C3, counterexample: a config file that is present, readable
and structurally malformed for every domain does not make store
resolution fail with a ConfigurationError; the file source is silently
skipped and resolution succeeds from environment-only sources. -/
theorem C3_counterexample :
    Cli.load_store_config (fun _ => true)
      { fileExists := true, readOk := true, storeParse := none,
        serverParse := none, loggerParse := none }
      ⟨[("RCAUTH_DB_HOST", "localhost"), ("RCAUTH_DB_USER", "postgres"),
        ("RCAUTH_DB_NAME", "rcauth")]⟩
      = .ok { host := "localhost", port := 5432, user := "postgres",
              password := "", database := "rcauth", pool_size := 10,
              ssl_mode := "prefer", migrations_dir := "./migrations" } := by
  rfl

/-- Claim C3, amended: if the config file is absent, resolution falls
back to environment-only sources; and if the file is present but
structurally malformed for the store domain, resolution equally falls
back to environment-only sources (the file source is silently skipped,
not fatal); the ConfigurationError arises only when the environment
fallback itself fails, and then carries the fixed message naming both
sources. -/
theorem C3_fallback (dirOk : String → Bool) (f fmal : Cli.FileParse)
    (envA envB : Cli.Env) (c : Store.Config)
    (habs : f.fileExists = false)
    (hex : fmal.fileExists = true) (hrd : fmal.readOk = true)
    (hsp : fmal.storeParse = none)
    (henv : Cli.load_store_from_env dirOk envA = .ok c)
    (hbad : (Cli.load_store_from_env dirOk envB).isOk = false) :
    Cli.load_store_config dirOk f envA = .ok c
    ∧ Cli.load_store_config dirOk fmal envA = .ok c
    ∧ Cli.load_store_config dirOk fmal envB
      = .error (Error.new_simple .ConfigurationError
          "Failed to load database configuration from environment or config file") := by
  refine ⟨?_, ?_, ?_⟩
  · unfold Cli.load_store_config Cli.load_config_file
    rw [if_neg (by simp [habs])]
    simp [henv]
  · unfold Cli.load_store_config Cli.load_config_file
    rw [if_pos ⟨hex, hrd⟩]
    simp [hsp, henv]
  · unfold Cli.load_store_config Cli.load_config_file
    rw [if_pos ⟨hex, hrd⟩]
    cases hE : Cli.load_store_from_env dirOk envB with
    | ok c2 => rw [hE] at hbad; simp [Except.isOk, Except.toBool] at hbad
    | error e2 => simp [hsp, hE]

/-- Witness for C3_fallback at concrete sources: an absent file, a
present-but-unparsable file, an environment holding host, user and
database, and an empty environment. -/
theorem C3_fallback_witness :
    Cli.load_store_config (fun _ => true)
      { fileExists := false, readOk := false, storeParse := none,
        serverParse := none, loggerParse := none }
      ⟨[("RCAUTH_DB_HOST", "localhost"), ("RCAUTH_DB_USER", "postgres"),
        ("RCAUTH_DB_NAME", "rcauth")]⟩
      = .ok { host := "localhost", port := 5432, user := "postgres",
              password := "", database := "rcauth", pool_size := 10,
              ssl_mode := "prefer", migrations_dir := "./migrations" }
    ∧ Cli.load_store_config (fun _ => true)
      { fileExists := true, readOk := true, storeParse := none,
        serverParse := none, loggerParse := none }
      ⟨[("RCAUTH_DB_HOST", "localhost"), ("RCAUTH_DB_USER", "postgres"),
        ("RCAUTH_DB_NAME", "rcauth")]⟩
      = .ok { host := "localhost", port := 5432, user := "postgres",
              password := "", database := "rcauth", pool_size := 10,
              ssl_mode := "prefer", migrations_dir := "./migrations" }
    ∧ Cli.load_store_config (fun _ => true)
      { fileExists := true, readOk := true, storeParse := none,
        serverParse := none, loggerParse := none }
      ⟨[]⟩
      = .error (Error.new_simple .ConfigurationError
          "Failed to load database configuration from environment or config file") := by
  exact C3_fallback (fun _ => true)
    { fileExists := false, readOk := false, storeParse := none,
      serverParse := none, loggerParse := none }
    { fileExists := true, readOk := true, storeParse := none,
      serverParse := none, loggerParse := none }
    ⟨[("RCAUTH_DB_HOST", "localhost"), ("RCAUTH_DB_USER", "postgres"),
      ("RCAUTH_DB_NAME", "rcauth")]⟩
    ⟨[]⟩
    { host := "localhost", port := 5432, user := "postgres",
      password := "", database := "rcauth", pool_size := 10,
      ssl_mode := "prefer", migrations_dir := "./migrations" }
    rfl rfl rfl rfl rfl rfl

/-- Claim C4, counterexample: with the store environment holding an
unparsable port value, loading succeeds with the default port rather
than failing with a ConfigurationError naming the offending key. -/
theorem C4_counterexample :
    Cli.parseNatRust Cli.u16max "abc" = none
    ∧ Cli.load_store_from_env (fun _ => true)
      ⟨[("RCAUTH_DB_HOST", "localhost"), ("RCAUTH_DB_USER", "postgres"),
        ("RCAUTH_DB_NAME", "rcauth"), ("RCAUTH_DB_PORT", "abc")]⟩
      = .ok { host := "localhost", port := 5432, user := "postgres",
              password := "", database := "rcauth", pool_size := 10,
              ssl_mode := "prefer", migrations_dir := "./migrations" } := by
  exact ⟨rfl, rfl⟩

/-- Claim C4, amended: a raw value that fails type coercion to the
target field type is silently ignored, never staged, and the field falls
back to its default: for every port string and pool-size string failing
parse, store loading succeeds with the default port and default pool
size and no error names the offending keys. -/
theorem C4_coercion (dirOk : String → Bool) (s t : String)
    (hbadPort : Cli.parseNatRust Cli.u16max s = none)
    (hbadPool : Cli.parseNatRust Cli.u32max t = none) :
    Cli.load_store_from_env dirOk
      ⟨[("RCAUTH_DB_HOST", "localhost"), ("RCAUTH_DB_USER", "postgres"),
        ("RCAUTH_DB_NAME", "rcauth"), ("RCAUTH_DB_PORT", s),
        ("RCAUTH_DB_POOL_SIZE", t), ("RCAUTH_DB_MIGRATIONS_DIR", "")]⟩
      = .ok { host := "localhost", port := Store.default_port, user := "postgres",
              password := "", database := "rcauth",
              pool_size := Store.default_pool_size,
              ssl_mode := Store.default_ssl_mode, migrations_dir := "" } := by
  have hH : Cli.Env.var
      ⟨[("RCAUTH_DB_HOST", "localhost"), ("RCAUTH_DB_USER", "postgres"),
        ("RCAUTH_DB_NAME", "rcauth"), ("RCAUTH_DB_PORT", s),
        ("RCAUTH_DB_POOL_SIZE", t), ("RCAUTH_DB_MIGRATIONS_DIR", "")]⟩
      "RCAUTH_DB_PORT" = some s := rfl
  have hS : Cli.Env.var
      ⟨[("RCAUTH_DB_HOST", "localhost"), ("RCAUTH_DB_USER", "postgres"),
        ("RCAUTH_DB_NAME", "rcauth"), ("RCAUTH_DB_PORT", s),
        ("RCAUTH_DB_POOL_SIZE", t), ("RCAUTH_DB_MIGRATIONS_DIR", "")]⟩
      "RCAUTH_DB_POOL_SIZE" = some t := rfl
  unfold Cli.load_store_from_env
  rw [hH, hS]
  dsimp only
  rw [hbadPort, hbadPool]
  rfl

/-- Witness for C4_coercion at concrete failing raw values: a
non-numeric port string and a negative pool-size string. -/
theorem C4_coercion_witness :
    Cli.load_store_from_env (fun _ => false)
      ⟨[("RCAUTH_DB_HOST", "localhost"), ("RCAUTH_DB_USER", "postgres"),
        ("RCAUTH_DB_NAME", "rcauth"), ("RCAUTH_DB_PORT", "abc"),
        ("RCAUTH_DB_POOL_SIZE", "-1"), ("RCAUTH_DB_MIGRATIONS_DIR", "")]⟩
      = .ok { host := "localhost", port := Store.default_port, user := "postgres",
              password := "", database := "rcauth",
              pool_size := Store.default_pool_size,
              ssl_mode := Store.default_ssl_mode, migrations_dir := "" } := by
  exact C4_coercion (fun _ => false) "abc" "-1" (by decide) (by decide)

/-- Claim C5, counterexample: with the file source parsed for the server
domain (staging only a non-default API port) and the environment setting
the API host, the resolved configuration takes the file configuration
wholesale; the host key, present only in the environment provider, is
not retained, contradicting key-for-key last-write-wins merging. -/
theorem C5_counterexample :
    Cli.load_server_config
      { fileExists := true, readOk := true, storeParse := none,
        serverParse := some { Server.Config.defaultConfig with api_server_port := 9999 },
        loggerParse := none }
      ⟨[("RCAUTH_API_SERVER_HOST", "10.0.0.5")]⟩
      = .ok { api_server_host := "0.0.0.0", api_server_port := 9999,
              management_server_host := "0.0.0.0", management_server_port := 8001,
              enable_swagger := true, enable_cors := true,
              cors_allowed_origins := ["*"] }
    ∧ ("0.0.0.0" : String) ≠ "10.0.0.5" := by
  exact ⟨rfl, by decide⟩

/-- Claim C5, amended: server configuration resolution selects a
provider wholesale per domain rather than merging key-for-key: when the
file source parses for the server domain its configuration is returned
unchanged whatever the environment holds, and only when the file source
yields nothing for the domain is the environment loader used; within the
environment loader, a set variable overrides the built-in default for
its field key-for-key and an unset field keeps its default. -/
theorem C5_wholesale (f g : Cli.FileParse) (e₁ e₂ e₃ : Cli.Env)
    (cfg c : Server.Config) (hv : String)
    (hf : (Cli.load_config_file f).server_config = some cfg)
    (hg : (Cli.load_config_file g).server_config = none)
    (he : Cli.load_server_from_env e₃ = .ok c)
    (hvne : hv ≠ "") :
    Cli.load_server_config f e₁ = .ok cfg
    ∧ Cli.load_server_config f e₂ = .ok cfg
    ∧ Cli.load_server_config g e₃ = .ok c
    ∧ Cli.load_server_from_env ⟨[("RCAUTH_API_SERVER_HOST", hv)]⟩
      = .ok { Server.Config.defaultConfig with api_server_host := hv } := by
  refine ⟨?_, ?_, ?_, ?_⟩
  · unfold Cli.load_server_config
    rw [hf]
  · unfold Cli.load_server_config
    rw [hf]
  · unfold Cli.load_server_config
    rw [hg]
    exact he
  · have hH : Cli.Env.var ⟨[("RCAUTH_API_SERVER_HOST", hv)]⟩
        "RCAUTH_API_SERVER_HOST" = some hv := rfl
    have h2 : Cli.Env.var ⟨[("RCAUTH_API_SERVER_HOST", hv)]⟩
        "RCAUTH_API_SERVER_PORT" = none := rfl
    have h3 : Cli.Env.var ⟨[("RCAUTH_API_SERVER_HOST", hv)]⟩
        "RCAUTH_MANAGEMENT_SERVER_HOST" = none := rfl
    have h4 : Cli.Env.var ⟨[("RCAUTH_API_SERVER_HOST", hv)]⟩
        "RCAUTH_MANAGEMENT_SERVER_PORT" = none := rfl
    have h5 : Cli.Env.var ⟨[("RCAUTH_API_SERVER_HOST", hv)]⟩
        "RCAUTH_ENABLE_SWAGGER" = none := rfl
    have h6 : Cli.Env.var ⟨[("RCAUTH_API_SERVER_HOST", hv)]⟩
        "RCAUTH_ENABLE_CORS" = none := rfl
    have h7 : Cli.Env.var ⟨[("RCAUTH_API_SERVER_HOST", hv)]⟩
        "RCAUTH_CORS_ALLOWED_ORIGINS" = none := rfl
    unfold Cli.load_server_from_env
    rw [hH, h2, h3, h4, h5, h6, h7]
    dsimp only
    unfold Server.ConfigBuilder.build Server.Config.validate
    dsimp only [Server.ConfigBuilder.resolve, Server.ConfigBuilder.set_api_server_host,
      Server.Config.builder, Option.getD, Server.default_api_server_host,
      Server.default_api_server_port, Server.default_management_server_host,
      Server.default_management_server_port, Server.default_enable_swagger,
      Server.default_enable_cors, Server.default_cors_allowed_origins]
    rw [if_neg hvne,
      if_neg (show ¬(hv = "0.0.0.0" ∧ (8000 : Nat) = 8001) from
        fun hc => absurd hc.2 (by decide))]
    rfl

/-- Witness for C5_wholesale at concrete sources: a file parsed for the
server domain staging API port 9999, an absent file, two distinct
environments, and an environment setting only the API host. -/
theorem C5_wholesale_witness :
    Cli.load_server_config
      { fileExists := true, readOk := true, storeParse := none,
        serverParse := some { Server.Config.defaultConfig with api_server_port := 9999 },
        loggerParse := none }
      ⟨[]⟩
      = .ok { Server.Config.defaultConfig with api_server_port := 9999 }
    ∧ Cli.load_server_config
      { fileExists := true, readOk := true, storeParse := none,
        serverParse := some { Server.Config.defaultConfig with api_server_port := 9999 },
        loggerParse := none }
      ⟨[("RCAUTH_API_SERVER_PORT", "1234")]⟩
      = .ok { Server.Config.defaultConfig with api_server_port := 9999 }
    ∧ Cli.load_server_config
      { fileExists := false, readOk := false, storeParse := none,
        serverParse := none, loggerParse := none }
      ⟨[("RCAUTH_API_SERVER_HOST", "10.0.0.5")]⟩
      = .ok { Server.Config.defaultConfig with api_server_host := "10.0.0.5" }
    ∧ Cli.load_server_from_env ⟨[("RCAUTH_API_SERVER_HOST", "10.0.0.5")]⟩
      = .ok { Server.Config.defaultConfig with api_server_host := "10.0.0.5" } := by
  exact C5_wholesale
    { fileExists := true, readOk := true, storeParse := none,
      serverParse := some { Server.Config.defaultConfig with api_server_port := 9999 },
      loggerParse := none }
    { fileExists := false, readOk := false, storeParse := none,
      serverParse := none, loggerParse := none }
    ⟨[]⟩ ⟨[("RCAUTH_API_SERVER_PORT", "1234")]⟩
    ⟨[("RCAUTH_API_SERVER_HOST", "10.0.0.5")]⟩
    { Server.Config.defaultConfig with api_server_port := 9999 }
    { Server.Config.defaultConfig with api_server_host := "10.0.0.5" }
    "10.0.0.5"
    rfl rfl rfl (by decide)

end Rcauth
